import Mathlib

/-!
Verification development for the RT1M chatbot core (two-layer routing and
response-sanitization pipeline).

The Python source under `chatbot/` is shallowly embedded below:
  * Python values crossing the LLM boundary are modelled by `PyVal`
    (dictionaries as ordered association lists with string keys, numbers as
    rationals; Python's `bool` is a subclass of `int`, which is noted at each
    `isinstance` dispatch it affects).
  * Python exceptions are modelled by `Except PyErr`; `PyErr.security`
    corresponds to `SecurityViolationError` and `PyErr.other` to every other
    exception class.  Logging (`log_security_event`) is a fire-and-forget side
    effect and is not modelled.
  * Calls to external collaborators (the LLM provider, the output parsers)
    are modelled as outcome parameters: an `Except`-valued argument standing
    for the result of the external call.
Regular-expression searches from `security.py` are embedded as executable
character-list scanners over the lowercased text (the patterns are compiled
with `re.IGNORECASE`); word boundaries follow the ASCII reading of `\b`.
-/

/-- Python exception classes relevant to the core: `SecurityViolationError`
versus every other exception. -/
inductive PyErr where
  | security (msg : String)
  | other (msg : String)
deriving DecidableEq, Repr

/-- Python values as they appear in the chatbot core: `None`, booleans,
numbers (`int`/`float`, modelled as rationals), strings, lists, and
dictionaries (ordered association lists keyed by strings). -/
inductive PyVal where
  | none
  | bool (b : Bool)
  | num (q : Rat)
  | str (s : String)
  | list (items : List PyVal)
  | dict (entries : List (String × PyVal))

/-! ### Security configuration (`security.py`, module constants) -/

def MAX_INPUT_LENGTH : Nat := 2000
def MAX_OUTPUT_LENGTH : Nat := 1500
def MAX_JSON_SIZE : Nat := 10000
def MAX_ARRAY_LENGTH : Nat := 50
def MAX_STRING_LENGTH : Nat := 1000

/-! ### Regex pattern scanners (`SENSITIVE_PATTERNS`)

Each entry of `SENSITIVE_PATTERNS` is an executable scanner over the
lowercased character list of the text (all patterns are searched with
`re.IGNORECASE`, and `.` does not match a newline since `re.DOTALL` is
off).  Every scanner walks the text once, trying each position as a match
start, exactly as `re.search` does; a Boolean state tracks whether a word
boundary (`\b`) precedes the current position.  Lazy gaps (`.*?`) are
scanned up to the first newline; committing to the first candidate closer
is equivalent to backtracking here because a later closer lies inside the
region the earlier scan already covers.
-/

def isWordChar (c : Char) : Bool := c.isAlphanum || c = '_'

/-- Python `\s` on ASCII text: space, tab, newline, carriage return,
vertical tab, form feed. -/
def isPySpace (c : Char) : Bool :=
  c = ' ' || c = '\t' || c = '\n' || c = '\r' ||
  c = Char.ofNat 11 || c = Char.ofNat 12

def lbrace : Char := Char.ofNat 123
def rbrace : Char := Char.ofNat 125

/-- Python `text.lower()` as a character list (ASCII case folding). -/
def pyLower (text : String) : List Char := text.toList.map Char.toLower

/-- Python `text.strip()`: remove leading and trailing whitespace. -/
def pyStrip (text : String) : String :=
  String.mk (((text.toList.dropWhile isPySpace).reverse.dropWhile isPySpace).reverse)

/-- Python slicing `text[:n]`: the first `n` characters. -/
def pySlice (text : String) (n : Nat) : String :=
  String.mk (text.toList.take n)

/-- `pat` is a prefix of `s`. -/
def isPrefixL : List Char → List Char → Bool
  | [], _ => true
  | _ :: _, [] => false
  | p :: ps, c :: cs => p = c && isPrefixL ps cs

/-- Plain substring search (a regex that is a literal, or Python `in`). -/
def containsSub (pat : List Char) : List Char → Bool
  | [] => pat.isEmpty
  | c :: rest => isPrefixL pat (c :: rest) || containsSub pat rest

/-- `\b` after a match: end of text or a non-word character next (the last
matched character is a word character in every use). -/
def nonWordAfter : List Char → Bool
  | [] => true
  | c :: _ => !isWordChar c

/-- Occurrence of `\b pat \b`; the Boolean argument records whether a word
boundary precedes the current position (true at the start of text). -/
def wordOccursAux (pat : List Char) : List Char → Bool → Bool
  | [], _ => false
  | c :: rest, atBoundary =>
    (atBoundary && isPrefixL pat (c :: rest) &&
      nonWordAfter ((c :: rest).drop pat.length)) ||
    wordOccursAux pat rest (!isWordChar c)

/-- `\b pat \b` occurs in `s` (first and last characters of `pat` are word
characters in every use). -/
def wordOccurs (pat s : List Char) : Bool := wordOccursAux pat s true

/-- Alternatives of `\b(?:api[_-]?key|secret|password|token|credential|auth[_-]?token)\b`,
lowercased. -/
def credentialWords : List (List Char) :=
  [("api_key".toList), ("api-key".toList), ("apikey".toList),
   ("secret".toList), ("password".toList), ("token".toList),
   ("credential".toList), ("auth_token".toList), ("auth-token".toList),
   ("authtoken".toList)]

/-- `\b[A-Za-z0-9]{20,}\b`: at a position preceded by a word boundary, the
maximal alphanumeric run must reach 20 characters and end at a word
boundary.  (A shorter match inside the run is impossible: every inner
position is preceded by an alphanumeric, hence no starting boundary, and
every proper prefix of the run is followed by an alphanumeric, hence no
ending boundary.) -/
def longAlnumRunAux : List Char → Bool → Bool
  | [], _ => false
  | c :: rest, atBoundary =>
    (atBoundary && c.isAlphanum &&
      (let run := (c :: rest).takeWhile (fun d => d.isAlphanum)
       decide (20 ≤ run.length) && nonWordAfter ((c :: rest).drop run.length))) ||
    longAlnumRunAux rest (!isWordChar c)

def longAlnumRun (s : List Char) : Bool := longAlnumRunAux s true

/-- Scan for `pat` with a lazy gap that may not contain a newline
(`.*?pat` under `re.DOTALL` off). -/
def scanBeforeNewline (pat : List Char) : List Char → Bool
  | [] => pat.isEmpty
  | c :: rest =>
    isPrefixL pat (c :: rest) ||
    (if c = '\n' then false else scanBeforeNewline pat rest)

/-- `\$\{.*?\}` — environment-variable interpolation. -/
def dollarBracePattern : List Char → Bool
  | [] => false
  | c :: rest =>
    (c = '$' && (match rest with
      | d :: rest2 => d = lbrace && scanBeforeNewline [rbrace] rest2
      | [] => false)) ||
    dollarBracePattern rest

/-- `-----BEGIN.*?-----` — certificate headers. -/
def certHeaderPattern : List Char → Bool
  | [] => false
  | c :: rest =>
    (isPrefixL ("-----begin".toList) (c :: rest) &&
      scanBeforeNewline ("-----".toList) ((c :: rest).drop 10)) ||
    certHeaderPattern rest

/-- After `Bearer\s`: skip further whitespace, then require one character
of `[A-Za-z0-9\-_]` (the greedy `\s+` followed by the class is equivalent
to skipping all whitespace, since class characters are not whitespace). -/
def bearerAfterSpaces : List Char → Bool
  | [] => false
  | c :: rest =>
    if isPySpace c then bearerAfterSpaces rest
    else c.isAlphanum || c = '-' || c = '_'

/-- `Bearer\s+[A-Za-z0-9\-_]+` — bearer tokens. -/
def bearerPattern : List Char → Bool
  | [] => false
  | c :: rest =>
    (isPrefixL ("bearer".toList) (c :: rest) &&
      (match (c :: rest).drop 6 with
       | d :: rest2 => isPySpace d && bearerAfterSpaces rest2
       | [] => false)) ||
    bearerPattern rest

/-- Stage two of the script-tag pattern: `.*?</script>` after the `>`. -/
def scriptCloseScan : List Char → Bool := scanBeforeNewline ("</script>".toList)

/-- Stage one of the script-tag pattern: `.*?>` after `<script`. -/
def scriptGtScan : List Char → Bool
  | [] => false
  | c :: rest =>
    if c = '>' then scriptCloseScan rest
    else if c = '\n' then false
    else scriptGtScan rest

/-- `<script.*?>.*?</script>` — script tags. -/
def scriptTagPattern : List Char → Bool
  | [] => false
  | c :: rest =>
    (isPrefixL ("<script".toList) (c :: rest) && scriptGtScan ((c :: rest).drop 7)) ||
    scriptTagPattern rest

/-- `data:.*?base64` — base64 data URLs. -/
def dataBase64Pattern : List Char → Bool
  | [] => false
  | c :: rest =>
    (isPrefixL ("data:".toList) (c :: rest) &&
      scanBeforeNewline ("base64".toList) ((c :: rest).drop 5)) ||
    dataBase64Pattern rest

/-- `localhost:\d+` — localhost URLs. -/
def localhostPattern : List Char → Bool
  | [] => false
  | c :: rest =>
    (isPrefixL ("localhost:".toList) (c :: rest) &&
      (match (c :: rest).drop 10 with
       | d :: _ => d.isDigit
       | [] => false)) ||
    localhostPattern rest

/-- `\b(?:127\.0\.0\.1|0\.0\.0\.0)\b` — loopback addresses. -/
def localIpPattern (s : List Char) : Bool :=
  wordOccurs ("127.0.0.1".toList) s || wordOccurs ("0.0.0.0".toList) s

/-- Case-insensitive search of every entry of `SENSITIVE_PATTERNS`
(`security.py` lines 23–35); `javascript:` and `file:\/\/` are literal
patterns, searched as plain substrings. -/
def containsSensitivePattern (text : String) : Bool :=
  let t := pyLower text
  credentialWords.any (fun w => wordOccurs w t) ||
  longAlnumRun t ||
  dollarBracePattern t ||
  certHeaderPattern t ||
  bearerPattern t ||
  scriptTagPattern t ||
  containsSub ("javascript:".toList) t ||
  dataBase64Pattern t ||
  containsSub ("file://".toList) t ||
  localhostPattern t ||
  localIpPattern t

/-- `BANNED_PHRASES` (`security.py` lines 38–49). -/
def BANNED_PHRASES : List String :=
  ["internal error", "stack trace", "debug", "console.log", "print(",
   "error:", "exception:", "traceback", "sql error", "database error"]

/-- First banned phrase contained in the text, comparing lowercased phrase
against lowercased text (`phrase.lower() in text.lower()`), in list order —
the loop in `sanitize_string` raises on the first hit. -/
def firstBannedPhrase (text : String) : Option String :=
  BANNED_PHRASES.find? (fun p => containsSub (pyLower p) (pyLower text))

/-- `sanitize_string(text, max_length)` (`security.py` lines 55–73).  The
`isinstance(text, str)` guard is vacuous here since the argument is typed as
a string.  `text.strip()` is modelled by `pyStrip`. -/
def sanitize_string (text : String) (max_length : Nat) : Except PyErr String :=
  if text.length > max_length then
    Except.error (PyErr.security
      ("String too long. Maximum " ++ toString max_length ++ " characters allowed"))
  else if containsSensitivePattern text then
    Except.error (PyErr.security "String contains potentially sensitive information")
  else
    match firstBannedPhrase text with
    | Option.some p =>
        Except.error (PyErr.security ("String contains banned phrase: " ++ p))
    | Option.none => Except.ok (pyStrip text)

/-! ### Serialization helpers

`sanitize_dict` measures `len(json.dumps(data, default=str))` and
`get_generate_plan_prompt` interpolates dictionaries with `str(...)`.  Both
printers are embedded below.  Non-integral numbers are printed as Python
would print the corresponding rational only approximately (float `repr` is
not modelled exactly); this affects only the character counts fed to the
size thresholds, never the structure of any value.
-/

def jsonEscapeChar (c : Char) : String :=
  if c = '"' then "\\\""
  else if c = '\\' then "\\\\"
  else if c = '\n' then "\\n"
  else if c = '\t' then "\\t"
  else if c = '\r' then "\\r"
  else String.singleton c

def jsonQuote (s : String) : String :=
  "\"" ++ String.join (s.toList.map jsonEscapeChar) ++ "\""

def numRepr (q : Rat) : String :=
  if q.den = 1 then toString q.num else toString q

mutual

/-- `json.dumps(v, default=str)` with the default separators. -/
def jsonDumps : PyVal → String
  | PyVal.none => "null"
  | PyVal.bool b => if b then "true" else "false"
  | PyVal.num q => numRepr q
  | PyVal.str s => jsonQuote s
  | PyVal.list items => "[" ++ jsonDumpsItems items ++ "]"
  | PyVal.dict entries => "\x7b" ++ jsonDumpsEntries entries ++ "\x7d"

def jsonDumpsItems : List PyVal → String
  | [] => ""
  | [v] => jsonDumps v
  | v :: rest => jsonDumps v ++ ", " ++ jsonDumpsItems rest

def jsonDumpsEntries : List (String × PyVal) → String
  | [] => ""
  | [(k, v)] => jsonQuote k ++ ": " ++ jsonDumps v
  | (k, v) :: rest => jsonQuote k ++ ": " ++ jsonDumps v ++ ", " ++ jsonDumpsEntries rest

end

mutual

/-- Python `str(v)` for the values above (`repr` for nested strings). -/
def pyStr : PyVal → String
  | PyVal.none => "None"
  | PyVal.bool b => if b then "True" else "False"
  | PyVal.num q => numRepr q
  | PyVal.str s => s
  | PyVal.list items => "[" ++ pyReprItems items ++ "]"
  | PyVal.dict entries => "\x7b" ++ pyReprEntries entries ++ "\x7d"

def pyRepr : PyVal → String
  | PyVal.none => "None"
  | PyVal.bool b => if b then "True" else "False"
  | PyVal.num q => numRepr q
  | PyVal.str s => "'" ++ s ++ "'"
  | PyVal.list items => "[" ++ pyReprItems items ++ "]"
  | PyVal.dict entries => "\x7b" ++ pyReprEntries entries ++ "\x7d"

def pyReprItems : List PyVal → String
  | [] => ""
  | [v] => pyRepr v
  | v :: rest => pyRepr v ++ ", " ++ pyReprItems rest

def pyReprEntries : List (String × PyVal) → String
  | [] => ""
  | [(k, v)] => "'" ++ k ++ "': " ++ pyRepr v
  | (k, v) :: rest => "'" ++ k ++ "': " ++ pyRepr v ++ ", " ++ pyReprEntries rest

end

/-! ### Recursive sanitization (`sanitize_dict`, `sanitize_list`)

The mutual recursion below mirrors `security.py` lines 75–132.  The body of
each nested `sanitize_dict(value, budget)` call is inlined at its call site
(`sanitizeDictValue`, `sanitizeListItem`) so that the recursion is
structural; the top-level wrappers restate the bodies verbatim.  Python's
`sanitized[clean_key] = clean_value` keeps the last value on a key
collision; the embedding keeps the entry list as produced, and dictionary
lookups below (`pyLookup`) take the last matching entry accordingly. -/

mutual

def sanitizeEntries : List (String × PyVal) → Nat → Except PyErr (List (String × PyVal))
  | [], _ => Except.ok []
  | (k, v) :: rest, max_size => do
    let clean_key ← sanitize_string k 100
    let clean_value ← sanitizeDictValue v max_size
    let tail ← sanitizeEntries rest max_size
    Except.ok ((clean_key, clean_value) :: tail)

/-- Value dispatch inside `sanitize_dict` (lines 91–103): strings through
`sanitize_string`, nested dictionaries recursively at `max_size // 2`,
lists through `sanitize_list`, `int`/`float`/`bool`/`None` pass through.
The `else: str(value)` branch is unreachable for `PyVal`. -/
def sanitizeDictValue : PyVal → Nat → Except PyErr PyVal
  | PyVal.str s, _ => do
    let c ← sanitize_string s MAX_STRING_LENGTH
    Except.ok (PyVal.str c)
  | PyVal.dict entries, max_size =>
    if (jsonDumps (PyVal.dict entries)).length > max_size / 2 then
      Except.error (PyErr.security
        ("Dictionary too large. Maximum " ++ toString (max_size / 2) ++ " characters allowed"))
    else do
      let clean ← sanitizeEntries entries (max_size / 2)
      Except.ok (PyVal.dict clean)
  | PyVal.list items, _ =>
    if items.length > MAX_ARRAY_LENGTH then
      Except.error (PyErr.security
        ("List too long. Maximum " ++ toString MAX_ARRAY_LENGTH ++ " items allowed"))
    else do
      let clean ← sanitizeItems items
      Except.ok (PyVal.list clean)
  | PyVal.num q, _ => Except.ok (PyVal.num q)
  | PyVal.bool b, _ => Except.ok (PyVal.bool b)
  | PyVal.none, _ => Except.ok PyVal.none

def sanitizeItems : List PyVal → Except PyErr (List PyVal)
  | [] => Except.ok []
  | v :: rest => do
    let clean ← sanitizeListItem v
    let tail ← sanitizeItems rest
    Except.ok (clean :: tail)

/-- Item dispatch inside `sanitize_list` (lines 118–130); nested
dictionaries restart at the default budget `MAX_JSON_SIZE`. -/
def sanitizeListItem : PyVal → Except PyErr PyVal
  | PyVal.str s => do
    let c ← sanitize_string s MAX_STRING_LENGTH
    Except.ok (PyVal.str c)
  | PyVal.dict entries =>
    if (jsonDumps (PyVal.dict entries)).length > MAX_JSON_SIZE then
      Except.error (PyErr.security
        ("Dictionary too large. Maximum " ++ toString MAX_JSON_SIZE ++ " characters allowed"))
    else do
      let clean ← sanitizeEntries entries MAX_JSON_SIZE
      Except.ok (PyVal.dict clean)
  | PyVal.list items =>
    if items.length > MAX_ARRAY_LENGTH then
      Except.error (PyErr.security
        ("List too long. Maximum " ++ toString MAX_ARRAY_LENGTH ++ " items allowed"))
    else do
      let clean ← sanitizeItems items
      Except.ok (PyVal.list clean)
  | PyVal.num q => Except.ok (PyVal.num q)
  | PyVal.bool b => Except.ok (PyVal.bool b)
  | PyVal.none => Except.ok PyVal.none

end

/-- `sanitize_dict(data, max_size)` (`security.py` lines 75–107). -/
def sanitize_dict (data : PyVal) (max_size : Nat) : Except PyErr PyVal :=
  match data with
  | PyVal.dict entries =>
    if (jsonDumps (PyVal.dict entries)).length > max_size then
      Except.error (PyErr.security
        ("Dictionary too large. Maximum " ++ toString max_size ++ " characters allowed"))
    else do
      let clean ← sanitizeEntries entries max_size
      Except.ok (PyVal.dict clean)
  | _ => Except.error (PyErr.security "Input must be a dictionary")

/-- `sanitize_list(data)` (`security.py` lines 109–132). -/
def sanitize_list (data : PyVal) : Except PyErr PyVal :=
  match data with
  | PyVal.list items =>
    if items.length > MAX_ARRAY_LENGTH then
      Except.error (PyErr.security
        ("List too long. Maximum " ++ toString MAX_ARRAY_LENGTH ++ " items allowed"))
    else do
      let clean ← sanitizeItems items
      Except.ok (PyVal.list clean)
  | _ => Except.error (PyErr.security "Input must be a list")

/-! ### Dictionary helpers and domain validators -/

/-- Python dictionary lookup over the association-list model.  Keys of a
real Python dictionary are unique; on a duplicated key the last entry wins,
matching `d[k] = v` assignment order. -/
def pyLookup (entries : List (String × PyVal)) (key : String) : Option PyVal :=
  match entries with
  | [] => Option.none
  | (k, v) :: rest =>
    match pyLookup rest key with
    | Option.some w => Option.some w
    | Option.none => if k = key then Option.some v else Option.none

/-- Python truthiness for the values above. -/
def pyTruthy : PyVal → Bool
  | PyVal.none => false
  | PyVal.bool b => b
  | PyVal.num q => q ≠ 0
  | PyVal.str s => s ≠ ""
  | PyVal.list items => !items.isEmpty
  | PyVal.dict entries => !entries.isEmpty

/-- `dict.get(key)` — the looked-up value, or `None` when absent. -/
def pyGet (entries : List (String × PyVal)) (key : String) : PyVal :=
  match pyLookup entries key with
  | Option.some v => v
  | Option.none => PyVal.none

/-- The per-entry loop of `validate_financial_data` (`security.py` lines
198–203): every `int`/`float` value must be non-negative unless keyed
`debt`/`expenses`, and no numeric value may exceed 1e9.  Python's `bool`
passes the `isinstance(value, (int, float))` test as 0/1, for which neither
condition can fire, so booleans fall through like non-numeric values. -/
def checkFinEntries : List (String × PyVal) → Except PyErr Unit
  | [] => Except.ok ()
  | (key, value) :: rest =>
    match value with
    | PyVal.num q =>
      if q < 0 ∧ key ≠ "debt" ∧ key ≠ "expenses" then
        Except.error (PyErr.security ("Invalid negative value for " ++ key))
      else if q > 1000000000 then
        Except.error (PyErr.security ("Value too large for " ++ key))
      else checkFinEntries rest
    | _ => checkFinEntries rest

/-- `validate_financial_data(data)` (`security.py` lines 192–205). -/
def validate_financial_data (data : PyVal) : Except PyErr PyVal :=
  match data with
  | PyVal.dict entries => do
    checkFinEntries entries
    sanitize_dict (PyVal.dict entries) MAX_JSON_SIZE
  | _ => Except.error (PyErr.security "Financial data must be a dictionary")

/-- `validate_personal_info(data)` (`security.py` lines 207–219): when an
`age` entry is present and `isinstance(age, (int, float))` holds (true for
numbers and, vacuously for the range check, for booleans since Python's
`bool` is an `int` equal to 0 or 1), ages outside [0, 150] are rejected;
everything else is delegated to `sanitize_dict`. -/
def validate_personal_info (data : PyVal) : Except PyErr PyVal :=
  match data with
  | PyVal.dict entries =>
    match pyLookup entries "age" with
    | Option.some (PyVal.num q) =>
      if q < 0 ∨ q > 150 then
        Except.error (PyErr.security "Invalid age value")
      else sanitize_dict (PyVal.dict entries) MAX_JSON_SIZE
    | _ => sanitize_dict (PyVal.dict entries) MAX_JSON_SIZE
  | _ => Except.error (PyErr.security "Personal info must be a dictionary")

/-! ### Router (`chat_router.py`)

The chain `router_prompt | router_llm | router_parser` is an external
collaborator; its outcome (a parsed `RouterDecision`, or any provider /
parsing exception) is a parameter.  A provider or parser failure is never a
`SecurityViolationError` (only `security.py` raises that class), so the
outcome carries a plain message mapped to `PyErr.other`. -/

inductive MessageType where
  | general
  | personal
  | financial
  | goal_setting
deriving DecidableEq, Repr

structure RouterDecision where
  needs_user_data : Bool
  message_type : MessageType
  simple_response : String
deriving DecidableEq, Repr

def routerApology : String :=
  "I apologize, but I'm having trouble processing your request. Please try rephrasing your question about financial planning."

/-- The `try` body of `route_chat_message` (lines 65–78). -/
def routeChatBody (llmOutcome : Except String RouterDecision)
    (input_text : String) : Except PyErr RouterDecision := do
  let _ ← sanitize_string input_text MAX_INPUT_LENGTH
  match llmOutcome with
  | Except.ok decision => Except.ok decision
  | Except.error e => Except.error (PyErr.other e)

/-- `route_chat_message(input_text, user_id)` (`chat_router.py` lines
61–96): the `except SecurityViolationError` arm returns the safe apology
decision; the `except Exception` arm defaults to requiring user data. -/
def route_chat_message (llmOutcome : Except String RouterDecision)
    (input_text : String) : RouterDecision :=
  match routeChatBody llmOutcome input_text with
  | Except.ok decision => decision
  | Except.error (PyErr.security _) =>
    { needs_user_data := false, message_type := MessageType.general,
      simple_response := routerApology }
  | Except.error (PyErr.other _) =>
    { needs_user_data := true, message_type := MessageType.general,
      simple_response := "" }

/-! ### General Responder (`general_chat.py`) -/

structure GeneralChatResponse where
  message : String
deriving DecidableEq, Repr

def generalSecurityApology : String :=
  "I apologize, but I'm having trouble processing your request. Please try rephrasing your question about financial planning."

def generalErrorApology : String :=
  "I'm experiencing technical difficulties. For general financial advice, I'd recommend starting with creating a budget and setting clear financial goals."

/-- The `try` body of `get_general_advice` (lines 70–93): sanitize, call
the collaborator chain, then truncate any content longer than 1000
characters to its first 1000 characters with a trailing ellipsis marker. -/
def generalChatBody (llmOutcome : Except String String)
    (input_text : String) : Except PyErr GeneralChatResponse := do
  let _ ← sanitize_string input_text MAX_INPUT_LENGTH
  let content ← (match llmOutcome with
    | Except.ok c => Except.ok c
    | Except.error e => Except.error (PyErr.other e))
  let content := if content.length > 1000 then pySlice content 1000 ++ "..." else content
  Except.ok { message := content }

/-- `get_general_advice(input_text, history, user_id)` (`general_chat.py`
lines 66–105). -/
def get_general_advice (llmOutcome : Except String String)
    (input_text : String) : GeneralChatResponse :=
  match generalChatBody llmOutcome input_text with
  | Except.ok r => r
  | Except.error (PyErr.security _) => { message := generalSecurityApology }
  | Except.error (PyErr.other _) => { message := generalErrorApology }

/-! ### Structured chat response (`chat_response.py`) and Orchestrator
(`smart_chat.py`) -/

structure Goal where
  title : String
  category : String
  status : String
  data : Option (List (String × String))

structure ChatResponse where
  message : String
  personalInfo : Option (List (String × PyVal))
  financialInfo : Option (List (String × PyVal))
  goals : Option (List Goal)

structure SmartChatResponse where
  message : String
  personalInfo : Option (List (String × PyVal))
  financialInfo : Option (List (String × PyVal))
  goals : Option (List Goal)
  used_user_data : Bool

def smartChatDetailsRequest : String :=
  "I'd be happy to provide personalized advice! To give you the best recommendations, could you share some details about your financial situation, goals, or what specific area you'd like help with?"

def smartChatFallbackMessage : String :=
  "I apologize, but I'm experiencing technical difficulties. Please try rephrasing your question about financial planning."

/-- The generic fallback of `smart_chat_invoke` (lines 89–96). -/
def smartChatFallback : SmartChatResponse :=
  { message := smartChatFallbackMessage, personalInfo := Option.none,
    financialInfo := Option.none, goals := Option.none, used_user_data := false }

/-- Python `not user_profile` — the profile argument is falsy when absent
or an empty dictionary. -/
def profileFalsy : Option PyVal → Bool
  | Option.none => true
  | Option.some v => !pyTruthy v

/-- The `try` body of `smart_chat_invoke` (`smart_chat.py` lines 43–87).
The three sub-calls — `route_chat_message`, `get_general_advice`,
`secure_chat_invoke` — are designed never to raise, but the orchestrator
guards against any exception escaping any step, so each step is modelled as
an outcome parameter that may carry an exception. -/
def smartChatBody (routingOutcome : Except PyErr RouterDecision)
    (generalOutcome : Except PyErr GeneralChatResponse)
    (fullOutcome : Except PyErr ChatResponse)
    (user_profile : Option PyVal) : Except PyErr SmartChatResponse := do
  let routing_decision ← routingOutcome
  if !routing_decision.needs_user_data then
    if routing_decision.simple_response ≠ "" ∧
        (pyStrip routing_decision.simple_response).length > 10 then
      Except.ok { message := routing_decision.simple_response,
                  personalInfo := Option.none, financialInfo := Option.none,
                  goals := Option.none, used_user_data := false }
    else do
      let general_response ← generalOutcome
      Except.ok { message := general_response.message,
                  personalInfo := Option.none, financialInfo := Option.none,
                  goals := Option.none, used_user_data := false }
  else
    if profileFalsy user_profile then
      Except.ok { message := smartChatDetailsRequest,
                  personalInfo := Option.none, financialInfo := Option.none,
                  goals := Option.none, used_user_data := false }
    else do
      let full_response ← fullOutcome
      Except.ok { message := full_response.message,
                  personalInfo := full_response.personalInfo,
                  financialInfo := full_response.financialInfo,
                  goals := full_response.goals, used_user_data := true }

/-- `smart_chat_invoke(input_text, user_profile, history, user_id)`
(`smart_chat.py` lines 25–96): the catch-all `except Exception` converts
any escaped exception into the generic fallback, so the function always
returns a value. -/
def smart_chat_invoke (routingOutcome : Except PyErr RouterDecision)
    (generalOutcome : Except PyErr GeneralChatResponse)
    (fullOutcome : Except PyErr ChatResponse)
    (user_profile : Option PyVal) : SmartChatResponse :=
  match smartChatBody routingOutcome generalOutcome fullOutcome user_profile with
  | Except.ok r => r
  | Except.error _ => smartChatFallback

/-! ### Plan Generator (`generate_plan.py`) -/

def MAX_STEPS : Nat := 10
def MAX_MILESTONES : Nat := 10
def MAX_PLAN_TITLE_LENGTH : Nat := 100
def MAX_STEP_DESCRIPTION_LENGTH : Nat := 500

/-- `get_generate_plan_prompt(user_profile, goal_data, format_instructions)`
(`generate_plan_prompt.py`): an f-string interpolating the two dictionaries
with `str(...)` and the parser-supplied format instructions. -/
def get_generate_plan_prompt (user_profile goal_data : PyVal)
    (format_instructions : String) : String :=
  "\nYou are a financial planning assistant.\n\nUsing the user's profile and goal details below, generate a detailed and realistic financial plan. \nRespond ONLY with a valid JSON object that matches the schema described.\n\n"
  ++ format_instructions
  ++ "\n\nUser Profile:\n" ++ pyStr user_profile
  ++ "\n\nGoal:\n" ++ pyStr goal_data ++ "\n"

/-- The step loop of `validate_plan_response` (lines 36–40): for each step
that is a dictionary with a `description` entry, `str(description)` must
not exceed `MAX_STEP_DESCRIPTION_LENGTH`; the error message carries the
1-based step index. -/
def checkStepDescriptions : List PyVal → Nat → Except PyErr Unit
  | [], _ => Except.ok ()
  | step :: rest, i =>
    match step with
    | PyVal.dict entries =>
      match pyLookup entries "description" with
      | Option.some v =>
        if (pyStr v).length > MAX_STEP_DESCRIPTION_LENGTH then
          Except.error (PyErr.security ("Step " ++ toString (i + 1) ++ " description too long"))
        else checkStepDescriptions rest (i + 1)
      | Option.none => checkStepDescriptions rest (i + 1)
    | _ => checkStepDescriptions rest (i + 1)

/-- `validate_plan_response(parsed_plan)` (`generate_plan.py` lines 23–52). -/
def validate_plan_response (parsed_plan : PyVal) : Except PyErr PyVal :=
  match parsed_plan with
  | PyVal.dict _ => do
    let sanitized_plan ← sanitize_dict parsed_plan MAX_JSON_SIZE
    let entries := match sanitized_plan with
      | PyVal.dict es => es
      | _ => []
    let _ ← (match pyLookup entries "steps" with
      | Option.some (PyVal.list steps) =>
        if steps.length > MAX_STEPS then
          Except.error (PyErr.security
            ("AI returned too many steps (" ++ toString steps.length ++ "). Limit is "
              ++ toString MAX_STEPS ++ "."))
        else checkStepDescriptions steps 0
      | _ => Except.ok ())
    let _ ← (match pyLookup entries "milestones" with
      | Option.some (PyVal.list milestones) =>
        if milestones.length > MAX_MILESTONES then
          Except.error (PyErr.security
            ("AI returned too many milestones (" ++ toString milestones.length ++ "). Limit is "
              ++ toString MAX_MILESTONES ++ "."))
        else Except.ok ()
      | _ => Except.ok ())
    let _ ← (match pyLookup entries "title" with
      | Option.some (PyVal.str title) =>
        if title.length > MAX_PLAN_TITLE_LENGTH then
          Except.error (PyErr.security "Plan title too long")
        else Except.ok ()
      | _ => Except.ok ())
    Except.ok sanitized_plan
  | _ => Except.error (PyErr.security "Plan response must be a dictionary")

/-- `create_fallback_plan()` (`generate_plan.py` lines 54–82). -/
def create_fallback_plan : PyVal :=
  PyVal.dict
    [("title", PyVal.str "Financial Planning Guide"),
     ("steps", PyVal.list
       [PyVal.dict
         [("title", PyVal.str "Assessment"),
          ("description", PyVal.str "Review your current financial situation and goals"),
          ("duration", PyVal.str "1 week")],
        PyVal.dict
         [("title", PyVal.str "Planning"),
          ("description", PyVal.str "Create a detailed financial plan based on your assessment"),
          ("duration", PyVal.str "2 weeks")],
        PyVal.dict
         [("title", PyVal.str "Implementation"),
          ("description", PyVal.str "Begin implementing your financial plan step by step"),
          ("duration", PyVal.str "Ongoing")]]),
     ("milestones", PyVal.list
       [PyVal.dict
         [("title", PyVal.str "Plan Created"),
          ("description", PyVal.str "Complete your initial financial plan"),
          ("target_date", PyVal.str "1 month")]])]

/-- The `try` body of `generate_plan` (lines 86–120).  The LLM call is an
external collaborator whose outcome is a parameter (`openai.OpenAIError`
and every other exception are wrapped into `RuntimeError`, a non-security
error); the Pydantic plan parser is likewise a parameter whose success is
the parsed plan as a dictionary and whose failure is a parsing exception. -/
def generatePlanBody (user_profile goal_data : PyVal) (format_instructions : String)
    (llmOutcome : Except String String) (parseOutcome : Except String PyVal) :
    Except PyErr PyVal := do
  let validated_profile ← sanitize_dict user_profile MAX_INPUT_LENGTH
  let validated_goal ← sanitize_dict goal_data MAX_INPUT_LENGTH
  let prompt := get_generate_plan_prompt validated_profile validated_goal format_instructions
  if prompt.length > MAX_INPUT_LENGTH * 2 then
    Except.error (PyErr.security "Generated prompt too large")
  else do
    let content ← (match llmOutcome with
      | Except.ok c => Except.ok c
      | Except.error e => Except.error (PyErr.other ("LLM invocation failed: " ++ e)))
    if content = "" then
      Except.error (PyErr.security "Empty or invalid response from LLM")
    else do
      let plan_dict ← (match parseOutcome with
        | Except.ok p => Except.ok p
        | Except.error e => Except.error (PyErr.other e))
      validate_plan_response plan_dict

/-- `generate_plan(user_profile, goal_data, user_id)` (`generate_plan.py`
lines 84–133): a `SecurityViolationError` is logged and re-raised, any
other exception is absorbed into the fallback plan. -/
def generate_plan (user_profile goal_data : PyVal) (format_instructions : String)
    (llmOutcome : Except String String) (parseOutcome : Except String PyVal) :
    Except PyErr PyVal :=
  match generatePlanBody user_profile goal_data format_instructions llmOutcome parseOutcome with
  | Except.ok plan => Except.ok plan
  | Except.error (PyErr.security e) => Except.error (PyErr.security e)
  | Except.error (PyErr.other _) => Except.ok create_fallback_plan

/-! ### Plan schema conformance (`plan_schema.py`)

A structural check that a dictionary conforms to the declared Pydantic
`Plan` model: every field without a default must be present with the
declared shape (`Literal` enums, lists of conforming `PlanStep` /
`PlanMilestone` dictionaries). -/

def isStrVal : PyVal → Bool
  | PyVal.str _ => true
  | _ => false

def isIntVal : PyVal → Bool
  | PyVal.num q => q.den = 1
  | _ => false

def isBoolVal : PyVal → Bool
  | PyVal.bool _ => true
  | _ => false

def isLiteralOf (choices : List String) : PyVal → Bool
  | PyVal.str s => choices.contains s
  | _ => false

/-- Required fields of `PlanStep` (`plan_schema.py` lines 4–13): `id`,
`title`, `description`, `order`, `timeframe`, `completed`. -/
def conformsToPlanStep (v : PyVal) : Bool :=
  match v with
  | PyVal.dict es =>
    isStrVal (pyGet es "id") && isStrVal (pyGet es "title") &&
    isStrVal (pyGet es "description") && isIntVal (pyGet es "order") &&
    isStrVal (pyGet es "timeframe") && isBoolVal (pyGet es "completed")
  | _ => false

/-- Required fields of `PlanMilestone` (`plan_schema.py` lines 15–22). -/
def conformsToPlanMilestone (v : PyVal) : Bool :=
  match v with
  | PyVal.dict es =>
    isStrVal (pyGet es "id") && isStrVal (pyGet es "title") &&
    isStrVal (pyGet es "description") && isStrVal (pyGet es "targetDate") &&
    isBoolVal (pyGet es "completed")
  | _ => false

/-- Required fields of `Plan` (`plan_schema.py` lines 30–42): `title`,
`description`, `timeframe`, `category`, `priority`, `steps`, `milestones`,
`riskLevel`. -/
def conformsToPlanSchema (v : PyVal) : Bool :=
  match v with
  | PyVal.dict es =>
    isStrVal (pyGet es "title") && isStrVal (pyGet es "description") &&
    isStrVal (pyGet es "timeframe") &&
    isLiteralOf ["investment", "savings", "debt", "income", "budget", "mixed"]
      (pyGet es "category") &&
    isLiteralOf ["high", "medium", "low"] (pyGet es "priority") &&
    (match pyGet es "steps" with
     | PyVal.list steps => steps.all conformsToPlanStep
     | _ => false) &&
    (match pyGet es "milestones" with
     | PyVal.list milestones => milestones.all conformsToPlanMilestone
     | _ => false) &&
    isLiteralOf ["low", "medium", "high"] (pyGet es "riskLevel")
  | _ => false

/-! ### Confidence Scorer (`firebase_integration_example.py`,
`_calculate_confidence`) -/

/-- The `extracted_data` dictionary assembled from a `ChatResponse`:
`personalInfo` and `financialInfo` are optional dictionaries, `goals` an
optional list of goal dictionaries. -/
structure ExtractedData where
  personalInfo : Option (List (String × PyVal))
  financialInfo : Option (List (String × PyVal))
  goals : Option (List (List (String × PyVal)))

/-- `len([v for v in d.values() if v])` — the number of truthy values. -/
def truthyCount (entries : List (String × PyVal)) : Nat :=
  (entries.filter (fun kv => pyTruthy kv.2)).length

/-- `sum(1 for goal in goals if goal.get("title") and goal.get("category"))`. -/
def goalsQuality (goals : List (List (String × PyVal))) : Nat :=
  (goals.filter (fun g => pyTruthy (pyGet g "title") && pyTruthy (pyGet g "category"))).length

/-- `_calculate_confidence(extracted_data)` (`firebase_integration_example.py`
lines 165–189).  Each `if extracted_data.get(...)` guard tests Python
truthiness: a missing field (`None`) and an empty dictionary/list are both
skipped. -/
def calculate_confidence (extracted_data : ExtractedData) : Rat :=
  let score : Rat := 0
  let score := score +
    (match extracted_data.personalInfo with
     | Option.some entries =>
       if entries.isEmpty then 0
       else min ((truthyCount entries : Rat) / 5) 1 * (3 / 10)
     | Option.none => 0)
  let score := score +
    (match extracted_data.financialInfo with
     | Option.some entries =>
       if entries.isEmpty then 0
       else min ((truthyCount entries : Rat) / 4) 1 * (4 / 10)
     | Option.none => 0)
  let score := score +
    (match extracted_data.goals with
     | Option.some goals =>
       if goals.isEmpty then 0
       else min ((goalsQuality goals : Rat) / (goals.length : Rat)) 1 * (3 / 10)
     | Option.none => 0)
  min score 1

/-- Is the value Python's `None`? -/
def isNoneVal : PyVal → Bool
  | PyVal.none => true
  | _ => false

/-- Modelled from the spec's confidence formula (section 4.5 / claim C6),
for comparison with `calculate_confidence`: `0.3 * min(nonNullPersonalFields/5, 1)
+ 0.4 * min(nonNullFinancialFields/4, 1) + 0.3 * min(goalsWithTitleAndCategory/totalGoals, 1)`,
where a term whose source field is absent contributes 0, counting non-null
(rather than truthy) fields, with the result clamped to [0, 1]. -/
def confidence_spec_formula (extracted_data : ExtractedData) : Rat :=
  let nonNullCount : List (String × PyVal) → Nat :=
    fun entries => (entries.filter (fun kv => !isNoneVal kv.2)).length
  let goalsTitled : List (List (String × PyVal)) → Nat :=
    fun goals => (goals.filter (fun g =>
      !isNoneVal (pyGet g "title") && !isNoneVal (pyGet g "category"))).length
  let personalTerm : Rat := match extracted_data.personalInfo with
    | Option.some entries => min ((nonNullCount entries : Rat) / 5) 1
    | Option.none => 0
  let financialTerm : Rat := match extracted_data.financialInfo with
    | Option.some entries => min ((nonNullCount entries : Rat) / 4) 1
    | Option.none => 0
  let goalTerm : Rat := match extracted_data.goals with
    | Option.some goals => min ((goalsTitled goals : Rat) / (goals.length : Rat)) 1
    | Option.none => 0
  min ((3 / 10) * personalTerm + (4 / 10) * financialTerm + (3 / 10) * goalTerm) 1

/-- The amended confidence formula: identical to the spec's formula except
that the field counts follow Python truthiness (non-null, non-zero,
non-empty) instead of mere non-nullness, that a goal counts when its
`title` and `category` are truthy, and that a present-but-empty source
field also contributes 0 (for `personalInfo`/`financialInfo` this is
automatic, since an empty dictionary has no truthy values). -/
def confidence_amended_formula (extracted_data : ExtractedData) : Rat :=
  let personalTerm : Rat := match extracted_data.personalInfo with
    | Option.some entries => min ((truthyCount entries : Rat) / 5) 1
    | Option.none => 0
  let financialTerm : Rat := match extracted_data.financialInfo with
    | Option.some entries => min ((truthyCount entries : Rat) / 4) 1
    | Option.none => 0
  let goalTerm : Rat := match extracted_data.goals with
    | Option.some goals =>
      if goals.isEmpty then 0
      else min ((goalsQuality goals : Rat) / (goals.length : Rat)) 1
    | Option.none => 0
  min ((3 / 10) * personalTerm + (4 / 10) * financialTerm + (3 / 10) * goalTerm) 1

/-- Concrete extraction whose `personalInfo` holds the non-null but falsy
value `0`. -/
def edAgeZero : ExtractedData :=
  { personalInfo := Option.some [("age", PyVal.num 0)],
    financialInfo := Option.none, goals := Option.none }

/-- A clean filler string of length `3 * n` (`"ab "` repeated), passing
every sanitization pattern. -/
def fillerText (n : Nat) : String :=
  String.mk (List.flatten (List.replicate n ['a', 'b', ' ']))

/-- A parsed plan with 11 steps (one more than `MAX_STEPS`). -/
def planElevenSteps : PyVal :=
  PyVal.dict
    [("steps", PyVal.list (List.replicate 11
      (PyVal.dict [("title", PyVal.str "s"), ("description", PyVal.str "d")])))]

/-- A parsed plan with 11 milestones (one more than `MAX_MILESTONES`). -/
def planElevenMilestones : PyVal :=
  PyVal.dict
    [("milestones", PyVal.list (List.replicate 11
      (PyVal.dict [("title", PyVal.str "m")])))]

/-- A parsed plan whose single step description is 501 characters long and
carries no surrounding whitespace (so sanitization keeps its length). -/
def planLongStepDescription : PyVal :=
  PyVal.dict
    [("steps", PyVal.list
      [PyVal.dict [("description", PyVal.str (fillerText 166 ++ "abc"))]])]

/-- A parsed plan whose title is 102 characters long. -/
def planLongTitle : PyVal :=
  PyVal.dict [("title", PyVal.str (fillerText 34))]

/-- A 1001-character collaborator response. -/
def longContentA : String := String.mk (List.replicate 1001 'a')

/-- The entry list of `create_fallback_plan`. -/
def fallbackPlanEntries : List (String × PyVal) :=
  match create_fallback_plan with
  | PyVal.dict entries => entries
  | _ => []

/-! ## Theorems -/

set_option maxRecDepth 100000
set_option maxHeartbeats 1000000

/-- Every failure of `sanitize_string` is a `SecurityViolationError`. -/
theorem sanitize_string_error_is_security (text : String) (max_length : Nat)
    (e : PyErr) (h : sanitize_string text max_length = Except.error e) :
    ∃ msg, e = PyErr.security msg := by
  unfold sanitize_string at h
  split_ifs at h with h1 h2
  · exact ⟨_, (Except.error.inj h).symm⟩
  · exact ⟨_, (Except.error.inj h).symm⟩
  · revert h
    cases firstBannedPhrase text with
    | some p => intro h; exact ⟨_, (Except.error.inj h).symm⟩
    | none => intro h; exact absurd h (by simp)

/-- C1: for every string within the maximum length that matches no
sensitive-content pattern and contains no banned phrase, `sanitize_string`
returns the input unchanged except for stripping surrounding whitespace;
for every longer string it raises `SecurityViolationError` and returns no
value. -/
theorem C1_sanitize_string_validation_gate :
    (∀ (text : String) (max_length : Nat),
        text.length ≤ max_length →
        containsSensitivePattern text = false →
        firstBannedPhrase text = Option.none →
        sanitize_string text max_length = Except.ok (pyStrip text)) ∧
    (∀ (text : String) (max_length : Nat),
        text.length > max_length →
        ∃ msg, sanitize_string text max_length = Except.error (PyErr.security msg)) := by
  constructor
  · intro text max_length hlen hpat hban
    unfold sanitize_string
    rw [if_neg (by omega), hpat, hban]
    simp
  · intro text max_length hlen
    refine ⟨"String too long. Maximum " ++ toString max_length ++ " characters allowed", ?_⟩
    unfold sanitize_string
    rw [if_pos hlen]

/-- Witness for C1 at concrete inputs: a clean greeting passes through
modulo trimming, and a 2-character string over a 1-character budget is
rejected. -/
theorem C1_sanitize_string_validation_gate_witness :
    sanitize_string "  Hello there  " 1000 = Except.ok (pyStrip "  Hello there  ") ∧
    (∃ msg, sanitize_string "ab" 1 = Except.error (PyErr.security msg)) :=
  ⟨C1_sanitize_string_validation_gate.1 "  Hello there  " 1000 (by decide) (by decide) (by decide),
   C1_sanitize_string_validation_gate.2 "ab" 1 (by decide)⟩

/-- C2: when input sanitization raises a security violation the router
returns `needsUserData = false`, category `general`, and a non-empty safe
apology; on any other failure (collaborator error or malformed output) it
returns `needsUserData = true` with an empty `simpleResponse`. -/
theorem C2_router_failure_policy :
    (∀ (llmOutcome : Except String RouterDecision) (input_text : String) (e : PyErr),
        sanitize_string input_text MAX_INPUT_LENGTH = Except.error e →
        route_chat_message llmOutcome input_text =
          { needs_user_data := false, message_type := MessageType.general,
            simple_response := routerApology } ∧ routerApology ≠ "") ∧
    (∀ (llmOutcome : Except String RouterDecision) (input_text clean : String) (err : String),
        sanitize_string input_text MAX_INPUT_LENGTH = Except.ok clean →
        llmOutcome = Except.error err →
        route_chat_message llmOutcome input_text =
          { needs_user_data := true, message_type := MessageType.general,
            simple_response := "" }) := by
  constructor
  · intro llmOutcome input_text e h
    obtain ⟨msg, rfl⟩ := sanitize_string_error_is_security _ _ _ h
    refine ⟨?_, by decide⟩
    unfold route_chat_message routeChatBody
    rw [h]
    rfl
  · intro llmOutcome input_text clean err hsan hllm
    unfold route_chat_message routeChatBody
    rw [hsan, hllm]
    rfl

/-- Witness for C2: the input `"my password"` trips the credential pattern
and yields the safe apology decision; the clean input `"Hi"` with a failing
collaborator yields the fail-open decision. -/
theorem C2_router_failure_policy_witness :
    (route_chat_message (Except.error "provider down") "my password" =
      { needs_user_data := false, message_type := MessageType.general,
        simple_response := routerApology } ∧ routerApology ≠ "") ∧
    route_chat_message (Except.error "provider down") "Hi" =
      { needs_user_data := true, message_type := MessageType.general,
        simple_response := "" } :=
  ⟨C2_router_failure_policy.1 (Except.error "provider down") "my password"
      (PyErr.security "String contains potentially sensitive information") (by rfl),
   C2_router_failure_policy.2 (Except.error "provider down") "Hi" "Hi" "provider down"
      (by rfl) rfl⟩

/-- C3: the Orchestrator never raises — for every outcome of the routing,
general, and personalized steps, `smart_chat_invoke` returns the normal
result on success, and any exception escaping any step yields the single
generic fallback whose `used_user_data` is false. -/
theorem C3_orchestrator_never_raises :
    ∀ (routingOutcome : Except PyErr RouterDecision)
      (generalOutcome : Except PyErr GeneralChatResponse)
      (fullOutcome : Except PyErr ChatResponse) (user_profile : Option PyVal),
      (∀ r, smartChatBody routingOutcome generalOutcome fullOutcome user_profile = Except.ok r →
          smart_chat_invoke routingOutcome generalOutcome fullOutcome user_profile = r) ∧
      (∀ e, smartChatBody routingOutcome generalOutcome fullOutcome user_profile = Except.error e →
          smart_chat_invoke routingOutcome generalOutcome fullOutcome user_profile = smartChatFallback ∧
          smartChatFallback.used_user_data = false) := by
  intro routingOutcome generalOutcome fullOutcome user_profile
  constructor
  · intro r h
    unfold smart_chat_invoke
    rw [h]
  · intro e h
    refine ⟨?_, rfl⟩
    unfold smart_chat_invoke
    rw [h]

/-- Witness for C3: a routing step that dies with an unexpected exception
is absorbed into the generic fallback, and a successful general-path run is
returned as is. -/
theorem C3_orchestrator_never_raises_witness :
    (smart_chat_invoke (Except.error (PyErr.other "boom"))
        (Except.ok { message := "ok" }) (Except.error (PyErr.other "down")) Option.none =
      smartChatFallback ∧ smartChatFallback.used_user_data = false) ∧
    smart_chat_invoke
        (Except.ok { needs_user_data := false, message_type := MessageType.general,
                     simple_response := "" })
        (Except.ok { message := "General advice." }) (Except.error (PyErr.other "down"))
        Option.none =
      { message := "General advice.", personalInfo := Option.none,
        financialInfo := Option.none, goals := Option.none, used_user_data := false } :=
  ⟨(C3_orchestrator_never_raises (Except.error (PyErr.other "boom"))
      (Except.ok { message := "ok" }) (Except.error (PyErr.other "down")) Option.none).2
      (PyErr.other "boom") (by rfl),
   (C3_orchestrator_never_raises
      (Except.ok { needs_user_data := false, message_type := MessageType.general,
                   simple_response := "" })
      (Except.ok { message := "General advice." }) (Except.error (PyErr.other "down"))
      Option.none).1
      { message := "General advice.", personalInfo := Option.none,
        financialInfo := Option.none, goals := Option.none, used_user_data := false }
      (by rfl)⟩

/-- C4: when the Router decides `needsUserData = true` and no user profile
is supplied, the Orchestrator returns the fixed request-for-details message
with `used_user_data = false` and all extraction fields null, for every
outcome of the personalized path (which is therefore never consulted) and
every routed message. -/
theorem C4_no_profile_requests_details :
    ∀ (decision : RouterDecision)
      (generalOutcome : Except PyErr GeneralChatResponse)
      (fullOutcome : Except PyErr ChatResponse),
      decision.needs_user_data = true →
      smart_chat_invoke (Except.ok decision) generalOutcome fullOutcome Option.none =
        { message := smartChatDetailsRequest, personalInfo := Option.none,
          financialInfo := Option.none, goals := Option.none, used_user_data := false } := by
  intro decision generalOutcome fullOutcome h
  obtain ⟨nud, mt, sr⟩ := decision
  subst h
  rfl

/-- Witness for C4 at a concrete routing decision and two distinct
personalized-path outcomes. -/
theorem C4_no_profile_requests_details_witness :
    smart_chat_invoke
        (Except.ok { needs_user_data := true, message_type := MessageType.financial,
                     simple_response := "" })
        (Except.ok { message := "general" }) (Except.error (PyErr.other "timeout"))
        Option.none =
      { message := smartChatDetailsRequest, personalInfo := Option.none,
        financialInfo := Option.none, goals := Option.none, used_user_data := false } ∧
    smart_chat_invoke
        (Except.ok { needs_user_data := true, message_type := MessageType.financial,
                     simple_response := "" })
        (Except.ok { message := "general" })
        (Except.ok { message := "personalized", personalInfo := Option.none,
                     financialInfo := Option.none, goals := Option.none })
        Option.none =
      { message := smartChatDetailsRequest, personalInfo := Option.none,
        financialInfo := Option.none, goals := Option.none, used_user_data := false } :=
  ⟨C4_no_profile_requests_details
      { needs_user_data := true, message_type := MessageType.financial, simple_response := "" }
      (Except.ok { message := "general" }) (Except.error (PyErr.other "timeout")) rfl,
   C4_no_profile_requests_details
      { needs_user_data := true, message_type := MessageType.financial, simple_response := "" }
      (Except.ok { message := "general" })
      (Except.ok { message := "personalized", personalInfo := Option.none,
                   financialInfo := Option.none, goals := Option.none }) rfl⟩

/-- C5: `generate_plan` re-raises every `SecurityViolationError` after
logging (with over-long step lists, milestone lists, step descriptions and
titles among the violations, witnessed at concrete plans), absorbs every
other failure into the fixed fallback plan of three steps and one
milestone, and never returns no plan. -/
theorem C5_generate_plan_error_policy :
    (∀ (user_profile goal_data : PyVal) (format_instructions : String)
        (llmOutcome : Except String String) (parseOutcome : Except String PyVal),
      (∀ e, generatePlanBody user_profile goal_data format_instructions llmOutcome parseOutcome =
              Except.error (PyErr.security e) →
            generate_plan user_profile goal_data format_instructions llmOutcome parseOutcome =
              Except.error (PyErr.security e)) ∧
      (∀ e, generatePlanBody user_profile goal_data format_instructions llmOutcome parseOutcome =
              Except.error (PyErr.other e) →
            generate_plan user_profile goal_data format_instructions llmOutcome parseOutcome =
              Except.ok create_fallback_plan) ∧
      ((∃ plan, generate_plan user_profile goal_data format_instructions llmOutcome parseOutcome =
          Except.ok plan) ∨
       (∃ msg, generate_plan user_profile goal_data format_instructions llmOutcome parseOutcome =
          Except.error (PyErr.security msg)))) ∧
    (∃ msg, validate_plan_response planElevenSteps = Except.error (PyErr.security msg)) ∧
    (∃ msg, validate_plan_response planElevenMilestones = Except.error (PyErr.security msg)) ∧
    (∃ msg, validate_plan_response planLongStepDescription = Except.error (PyErr.security msg)) ∧
    (∃ msg, validate_plan_response planLongTitle = Except.error (PyErr.security msg)) ∧
    (∃ steps milestones,
      pyLookup fallbackPlanEntries "steps" = Option.some (PyVal.list steps) ∧
      steps.length = 3 ∧
      pyLookup fallbackPlanEntries "milestones" = Option.some (PyVal.list milestones) ∧
      milestones.length = 1) := by
  refine ⟨?_, ?_, ?_, ?_, ?_, ?_⟩
  · intro user_profile goal_data format_instructions llmOutcome parseOutcome
    refine ⟨?_, ?_, ?_⟩
    · intro e h
      unfold generate_plan
      rw [h]
    · intro e h
      unfold generate_plan
      rw [h]
    · cases hb : generatePlanBody user_profile goal_data format_instructions llmOutcome
          parseOutcome with
      | ok p => exact Or.inl ⟨p, by unfold generate_plan; rw [hb]⟩
      | error e =>
        cases e with
        | security msg =>
          exact Or.inr ⟨msg, by unfold generate_plan; rw [hb]⟩
        | other msg =>
          exact Or.inl ⟨create_fallback_plan, by unfold generate_plan; rw [hb]⟩
  · exact ⟨"AI returned too many steps (11). Limit is 10.", by rfl⟩
  · exact ⟨"AI returned too many milestones (11). Limit is 10.", by rfl⟩
  · exact ⟨"Step 1 description too long", by rfl⟩
  · exact ⟨"Plan title too long", by rfl⟩
  · exact ⟨_, _, by rfl, by rfl, by rfl, by rfl⟩

/-- Witness for C5: a non-dictionary profile makes the body raise a
security violation which `generate_plan` re-raises, while a provider
failure on well-formed inputs yields the fallback plan. -/
theorem C5_generate_plan_error_policy_witness :
    generate_plan (PyVal.str "x") (PyVal.str "x") "" (Except.error "boom")
        (Except.error "bad") =
      Except.error (PyErr.security "Input must be a dictionary") ∧
    generate_plan (PyVal.dict []) (PyVal.dict []) "" (Except.error "boom")
        (Except.error "bad") =
      Except.ok create_fallback_plan :=
  ⟨((C5_generate_plan_error_policy.1 (PyVal.str "x") (PyVal.str "x") "" (Except.error "boom")
      (Except.error "bad")).1 "Input must be a dictionary" (by rfl)),
   ((C5_generate_plan_error_policy.1 (PyVal.dict []) (PyVal.dict []) "" (Except.error "boom")
      (Except.error "bad")).2.1 "LLM invocation failed: boom" (by rfl))⟩

/-- C6 counterexample: on an extraction whose `personalInfo` holds the
non-null value `0`, the code scores 0 while the spec's non-null-field
formula scores `0.3 * min(1/5, 1) = 3/50` — the code counts truthy fields,
not non-null fields. -/
theorem C6_confidence_formula_counterexample :
    calculate_confidence edAgeZero ≠ confidence_spec_formula edAgeZero := by
  have h1 : calculate_confidence edAgeZero = 0 := by
    simp [calculate_confidence, edAgeZero, truthyCount, pyTruthy, List.filter]
  have h2 : confidence_spec_formula edAgeZero = 3 / 50 := by
    simp [confidence_spec_formula, edAgeZero, isNoneVal, List.filter]
    norm_num [min_eq_left]
  rw [h1, h2]
  norm_num

/-- C6 (amended): the confidence score equals
`0.3 * min(truthyPersonalFields/5, 1) + 0.4 * min(truthyFinancialFields/4, 1)
+ 0.3 * min(goalsWithTruthyTitleAndCategory/totalGoals, 1)` — counting
truthy (non-null, non-zero, non-empty) fields — where a term whose source
field is absent or empty contributes 0, and the result is clamped to
[0, 1]; the computation is a pure function of the extracted data. -/
theorem C6_confidence_truthy_formula (extracted_data : ExtractedData) :
    calculate_confidence extracted_data = confidence_amended_formula extracted_data ∧
    0 ≤ calculate_confidence extracted_data ∧ calculate_confidence extracted_data ≤ 1 := by
  obtain ⟨pi, fi, gs⟩ := extracted_data
  refine ⟨?_, ?_, min_le_right _ _⟩
  · rcases pi with _ | (_ | ⟨p, ps⟩) <;> rcases fi with _ | (_ | ⟨f, fs⟩) <;>
      rcases gs with _ | (_ | ⟨g, gl⟩) <;>
      simp [calculate_confidence, confidence_amended_formula, truthyCount] <;>
      ring_nf
  · rcases pi with _ | (_ | ⟨p, ps⟩) <;> rcases fi with _ | (_ | ⟨f, fs⟩) <;>
      rcases gs with _ | (_ | ⟨g, gl⟩) <;>
      simp [calculate_confidence] <;>
      positivity

/-- If some entry holds a numeric value that is negative under a key other
than `debt`/`expenses`, or exceeds 1e9, the financial check loop raises. -/
theorem checkFinEntries_error_of_bad (entries : List (String × PyVal))
    (key : String) (q : Rat)
    (hmem : (key, PyVal.num q) ∈ entries)
    (hbad : (q < 0 ∧ key ≠ "debt" ∧ key ≠ "expenses") ∨ q > 1000000000) :
    ∃ msg, checkFinEntries entries = Except.error (PyErr.security msg) := by
  induction entries with
  | nil => cases hmem
  | cons head tail ih =>
    obtain ⟨k0, v0⟩ := head
    rcases List.mem_cons.mp hmem with heq | htail
    · obtain ⟨hk, hv⟩ := Prod.mk.injEq .. ▸ heq
      subst hk
      cases hv
      simp only [checkFinEntries]
      by_cases hneg : q < 0 ∧ key ≠ "debt" ∧ key ≠ "expenses"
      · exact ⟨_, by rw [if_pos hneg]⟩
      · by_cases hbig : q > 1000000000
        · exact ⟨_, by rw [if_neg hneg, if_pos hbig]⟩
        · rcases hbad with h | h
          · exact absurd h hneg
          · exact absurd h hbig
    · obtain ⟨msg, hmsg⟩ := ih htail
      unfold checkFinEntries
      cases v0 with
      | num q0 =>
        simp only [checkFinEntries]
        by_cases hneg : q0 < 0 ∧ k0 ≠ "debt" ∧ k0 ≠ "expenses"
        · exact ⟨_, by rw [if_pos hneg]⟩
        · by_cases hbig : q0 > 1000000000
          · exact ⟨_, by rw [if_neg hneg, if_pos hbig]⟩
          · exact ⟨msg, by rw [if_neg hneg, if_neg hbig]; exact hmsg⟩
      | none => exact ⟨msg, by simp only [checkFinEntries]; exact hmsg⟩
      | bool b => exact ⟨msg, by simp only [checkFinEntries]; exact hmsg⟩
      | str s => exact ⟨msg, by simp only [checkFinEntries]; exact hmsg⟩
      | list items => exact ⟨msg, by simp only [checkFinEntries]; exact hmsg⟩
      | dict es => exact ⟨msg, by simp only [checkFinEntries]; exact hmsg⟩

/-- If every numeric entry is admissible, the financial check loop
completes. -/
theorem checkFinEntries_ok_of_good (entries : List (String × PyVal))
    (hgood : ∀ key q, (key, PyVal.num q) ∈ entries →
      (0 ≤ q ∨ key = "debt" ∨ key = "expenses") ∧ q ≤ 1000000000) :
    checkFinEntries entries = Except.ok () := by
  induction entries with
  | nil => rfl
  | cons head tail ih =>
    obtain ⟨k0, v0⟩ := head
    have htail : ∀ key q, (key, PyVal.num q) ∈ tail →
        (0 ≤ q ∨ key = "debt" ∨ key = "expenses") ∧ q ≤ 1000000000 :=
      fun key q h => hgood key q (List.mem_cons_of_mem _ h)
    cases v0 with
    | num q0 =>
      obtain ⟨hsign, hsize⟩ := hgood k0 q0 (List.mem_cons_self _ _)
      have hneg : ¬(q0 < 0 ∧ k0 ≠ "debt" ∧ k0 ≠ "expenses") := by
        rcases hsign with h | h | h
        · exact fun hc => absurd h (not_le.mpr hc.1)
        · exact fun hc => hc.2.1 h
        · exact fun hc => hc.2.2 h
      simp only [checkFinEntries]
      rw [if_neg hneg, if_neg (not_lt.mpr hsize)]
      exact ih htail
    | none => simp only [checkFinEntries]; exact ih htail
    | bool b => simp only [checkFinEntries]; exact ih htail
    | str s => simp only [checkFinEntries]; exact ih htail
    | list items => simp only [checkFinEntries]; exact ih htail
    | dict es => simp only [checkFinEntries]; exact ih htail

/-- C7: `validate_financial_data` raises a `SecurityViolationError`
whenever some numeric value is negative under a key other than
`debt`/`expenses` or exceeds 1e9, and otherwise returns exactly
`sanitize_dict` applied to the input. -/
theorem C7_validate_financial_data_policy (entries : List (String × PyVal)) :
    ((∃ key q, (key, PyVal.num q) ∈ entries ∧
        ((q < 0 ∧ key ≠ "debt" ∧ key ≠ "expenses") ∨ q > 1000000000)) →
      ∃ msg, validate_financial_data (PyVal.dict entries) =
        Except.error (PyErr.security msg)) ∧
    ((∀ key q, (key, PyVal.num q) ∈ entries →
        (0 ≤ q ∨ key = "debt" ∨ key = "expenses") ∧ q ≤ 1000000000) →
      validate_financial_data (PyVal.dict entries) =
        sanitize_dict (PyVal.dict entries) MAX_JSON_SIZE) := by
  constructor
  · rintro ⟨key, q, hmem, hbad⟩
    obtain ⟨msg, hmsg⟩ := checkFinEntries_error_of_bad entries key q hmem hbad
    refine ⟨msg, ?_⟩
    simp only [validate_financial_data]
    rw [hmsg]
    rfl
  · intro hgood
    simp only [validate_financial_data]
    rw [checkFinEntries_ok_of_good entries hgood]
    rfl

/-- Witness for C7: a negative income is rejected, while a negative debt is
delegated to `sanitize_dict`. -/
theorem C7_validate_financial_data_policy_witness :
    (∃ msg, validate_financial_data (PyVal.dict [("income", PyVal.num (-5))]) =
      Except.error (PyErr.security msg)) ∧
    validate_financial_data (PyVal.dict [("debt", PyVal.num (-5))]) =
      sanitize_dict (PyVal.dict [("debt", PyVal.num (-5))]) MAX_JSON_SIZE :=
  ⟨(C7_validate_financial_data_policy [("income", PyVal.num (-5))]).1
      ⟨"income", -5, List.mem_singleton.mpr rfl,
        Or.inl ⟨by norm_num, by decide, by decide⟩⟩,
   (C7_validate_financial_data_policy [("debt", PyVal.num (-5))]).2
      (by
        intro key q hmem
        rw [List.mem_singleton] at hmem
        obtain ⟨hk, hv⟩ := Prod.mk.injEq .. ▸ hmem
        cases hv
        exact ⟨Or.inr (Or.inl hk), by norm_num⟩)⟩

/-- C8 counterexample: on a 1001-character collaborator response the
returned message is 1003 characters long — the code appends an ellipsis
marker after cutting at 1000, so the result both exceeds 1000 characters
and differs from the plain 1000-character truncation. -/
theorem C8_general_advice_cap_counterexample :
    1000 < ((get_general_advice (Except.ok longContentA) "Hi").message).length ∧
    (get_general_advice (Except.ok longContentA) "Hi").message ≠ pySlice longContentA 1000 := by
  constructor
  · decide
  · decide

/-- C8 (amended): `get_general_advice` never returns a message longer than
1003 characters; for every collaborator response exceeding 1000 characters
the returned message is the response truncated to its first 1000
characters with a three-character ellipsis marker appended (1003
characters in all), and no error is raised. -/
theorem C8_general_advice_truncation :
    (∀ (llmOutcome : Except String String) (input_text : String),
        ((get_general_advice llmOutcome input_text).message).length ≤ 1003) ∧
    (∀ (content input_text clean : String),
        sanitize_string input_text MAX_INPUT_LENGTH = Except.ok clean →
        content.length > 1000 →
        get_general_advice (Except.ok content) input_text =
          { message := pySlice content 1000 ++ "..." } ∧
        (pySlice content 1000 ++ "...").length = 1003) := by
  constructor
  · intro llmOutcome input_text
    unfold get_general_advice generalChatBody
    cases hs : sanitize_string input_text MAX_INPUT_LENGTH with
    | error e =>
      cases e with
      | security msg =>
        show generalSecurityApology.length ≤ 1003
        decide
      | other msg =>
        show generalErrorApology.length ≤ 1003
        decide
    | ok clean =>
      cases llmOutcome with
      | error e =>
        show generalErrorApology.length ≤ 1003
        decide
      | ok content =>
        show (if content.length > 1000 then pySlice content 1000 ++ "..." else content).length ≤ 1003
        by_cases hc : content.length > 1000
        · rw [if_pos hc]
          simp only [String.length_append, pySlice]
          have : (String.mk (content.toList.take 1000)).length = 1000 := by
            show (content.toList.take 1000).length = 1000
            rw [List.length_take]
            have : content.length = content.toList.length := rfl
            omega
          have hdots : ("..." : String).length = 3 := rfl
          omega
        · rw [if_neg hc]
          omega
  · intro content input_text clean hsan hlen
    have hmsg : get_general_advice (Except.ok content) input_text =
        { message := pySlice content 1000 ++ "..." } := by
      unfold get_general_advice generalChatBody
      rw [hsan]
      show ({ message := if content.length > 1000 then pySlice content 1000 ++ "..." else content } :
        GeneralChatResponse) = _
      rw [if_pos hlen]
    have hlen3 : (pySlice content 1000 ++ "...").length = 1003 := by
      simp only [String.length_append, pySlice]
      have : (String.mk (content.toList.take 1000)).length = 1000 := by
        show (content.toList.take 1000).length = 1000
        rw [List.length_take]
        have : content.length = content.toList.length := rfl
        omega
      have hdots : ("..." : String).length = 3 := rfl
      omega
    exact ⟨hmsg, hlen3⟩

/-- Witness for C8 at the concrete 1001-character response: sanitization
passes on `"Hi"` and the returned message is the 1000-character cut plus
the ellipsis marker. -/
theorem C8_general_advice_truncation_witness :
    (get_general_advice (Except.ok longContentA) "Hi").message.length ≤ 1003 ∧
    (get_general_advice (Except.ok longContentA) "Hi" =
      { message := pySlice longContentA 1000 ++ "..." } ∧
     (pySlice longContentA 1000 ++ "...").length = 1003) :=
  ⟨C8_general_advice_truncation.1 (Except.ok longContentA) "Hi",
   C8_general_advice_truncation.2 longContentA "Hi" "Hi" (by rfl) (by decide)⟩

/-- C9: the fixed fallback plan does not conform to the declared `Plan`
schema — it lacks the required plan-level fields `description`,
`timeframe`, `category`, `priority` and `riskLevel`, and each of its three
steps lacks the required fields `id`, `order` and `completed`. -/
theorem C9_fallback_plan_violates_schema :
    conformsToPlanSchema create_fallback_plan = false ∧
    pyLookup fallbackPlanEntries "description" = Option.none ∧
    pyLookup fallbackPlanEntries "timeframe" = Option.none ∧
    pyLookup fallbackPlanEntries "category" = Option.none ∧
    pyLookup fallbackPlanEntries "priority" = Option.none ∧
    pyLookup fallbackPlanEntries "riskLevel" = Option.none ∧
    (∃ steps, pyLookup fallbackPlanEntries "steps" = Option.some (PyVal.list steps) ∧
      steps ≠ [] ∧
      steps.all (fun step =>
        match step with
        | PyVal.dict es =>
          (pyLookup es "id").isNone && (pyLookup es "order").isNone &&
            (pyLookup es "completed").isNone
        | _ => false) = true) :=
  ⟨rfl, rfl, rfl, rfl, rfl, rfl,
   ⟨_, rfl, by simp, rfl⟩⟩

/-- C10: when the `age` entry of a personal-info mapping is not a number
(Python's `isinstance(age, (int, float))` fails, e.g. for the string
`"200"`), `validate_personal_info` performs no range check and returns
exactly `sanitize_dict` applied to the mapping, so out-of-range ages
encoded as strings are accepted whenever sanitization succeeds. -/
theorem C10_non_numeric_age_skips_range_check :
    ∀ (entries : List (String × PyVal)) (v : PyVal),
      pyLookup entries "age" = Option.some v →
      (∀ q, v ≠ PyVal.num q) →
      validate_personal_info (PyVal.dict entries) =
        sanitize_dict (PyVal.dict entries) MAX_JSON_SIZE := by
  intro entries v hlook hnotnum
  simp only [validate_personal_info]
  rw [hlook]
  cases v with
  | num q => exact absurd rfl (hnotnum q)
  | none => rfl
  | bool b => rfl
  | str s => rfl
  | list items => rfl
  | dict es => rfl

/-- Witness for C10: the age entry `"200"` (out of range as a number) is
accepted — `validate_personal_info` succeeds and returns the sanitized
mapping unchanged. -/
theorem C10_non_numeric_age_skips_range_check_witness :
    pyLookup [("age", PyVal.str "200")] "age" = Option.some (PyVal.str "200") ∧
    validate_personal_info (PyVal.dict [("age", PyVal.str "200")]) =
      sanitize_dict (PyVal.dict [("age", PyVal.str "200")]) MAX_JSON_SIZE ∧
    validate_personal_info (PyVal.dict [("age", PyVal.str "200")]) =
      Except.ok (PyVal.dict [("age", PyVal.str "200")]) :=
  ⟨rfl,
   C10_non_numeric_age_skips_range_check [("age", PyVal.str "200")] (PyVal.str "200")
     rfl (fun q h => PyVal.noConfusion h),
   by rfl⟩
